import Mathlib

/-!
Shallow embedding of three wasix libc shims:
 - `src/lib/libc/wasix/libc-top-half/musl/src/unistd/ttyname_r.c` (the wasix branch),
 - `src/lib/libc/wasix/libc-top-half/musl/src/thread/pthread_setname_np.c`
   (both the upstream capability-rich branch and the wasix constrained stub),
 - `src/lib/libc/wasix/libc-bottom-half/headers/public/sys/select.h`
   (the `sigset_t` data definition and the `pselect` declaration).

Machine integers are modelled as `Nat`; the caller-supplied byte buffer is a
total function `Nat → Nat` giving the byte stored at each offset, so that
"writes at most n bytes" is expressible as "unchanged at every offset ≥ n".
-/

/-- The `__wasi_tty_t` record filled by the `__wasi_tty_get` host call.
`__wasi_bool_t` is `uint8_t`, so the flag fields are bytes compared against
`__WASI_BOOL_TRUE = 1`, not booleans. -/
structure WasiTty where
  cols : Nat
  rows : Nat
  width : Nat
  height : Nat
  stdin_tty : Nat
  stdout_tty : Nat
  stderr_tty : Nat
  echo : Nat
  line_buffered : Nat
deriving DecidableEq, Repr

/-- `ENOTTY` as defined by wasi-libc's errno mapping (`__WASI_ERRNO_NOTTY`). -/
def ENOTTY : Nat := 59

/-- C `strncpy(dest, src, n)` where `src` is the byte content of a
NUL-terminated string literal (`src` holds the bytes before the terminator):
offsets `i < n` receive `src[i]`, or a 0 pad once `src` is exhausted;
offsets `i ≥ n` are untouched. -/
def strncpy (dest : Nat → Nat) (src : List Nat) (n : Nat) : Nat → Nat :=
  fun i => if i < n then src.getD i 0 else dest i

/-- The bytes of the string literal "/dev/stdin". -/
def devStdin : List Nat := [47, 100, 101, 118, 47, 115, 116, 100, 105, 110]

/-- The bytes of the string literal "/dev/stdout". -/
def devStdout : List Nat := [47, 100, 101, 118, 47, 115, 116, 100, 111, 117, 116]

/-- The bytes of the string literal "/dev/stderr". -/
def devStderr : List Nat := [47, 100, 101, 118, 47, 115, 116, 100, 101, 114, 114]

/-- Result of a `ttyname_r` call: the `int` return value, the value of
`errno` after the call, and the caller's buffer after the call. -/
structure TtynameResult where
  ret : Nat
  errno : Nat
  buf : Nat → Nat

/-- The wasix branch of `ttyname_r` from `ttyname_r.c`.  `r` and `tty` are
the error code and record produced by the `__wasi_tty_get` host call;
`errno0` is the value of `errno` before the call.

```c
int r = __wasi_tty_get(&tty);
if (r != 0) { errno = r; return 0; }
if (fd == 0 && tty.stdin_tty == __WASI_BOOL_TRUE)  { strncpy(name, "/dev/stdin", size); return 0; }
if (fd == 1 && tty.stdout_tty == __WASI_BOOL_TRUE) { strncpy(name, "/dev/stdout", size); return 0; }
if (fd == 2 && tty.stderr_tty == __WASI_BOOL_TRUE) { strncpy(name, "/dev/stderr", size); return 0; }
return ENOTTY;
``` -/
def ttyname_r (fd : Int) (buf : Nat → Nat) (size : Nat) (r : Nat) (tty : WasiTty)
    (errno0 : Nat) : TtynameResult :=
  if r ≠ 0 then ⟨0, r, buf⟩
  else if fd = 0 ∧ tty.stdin_tty = 1 then ⟨0, errno0, strncpy buf devStdin size⟩
  else if fd = 1 ∧ tty.stdout_tty = 1 then ⟨0, errno0, strncpy buf devStdout size⟩
  else if fd = 2 ∧ tty.stderr_tty = 1 then ⟨0, errno0, strncpy buf devStderr size⟩
  else ⟨ENOTTY, errno0, buf⟩

/-- The buffer holds the bytes `s` followed by a NUL terminator. -/
def holdsCString (buf : Nat → Nat) (s : List Nat) : Prop :=
  (∀ i, i < s.length → buf i = s.getD i 0) ∧ buf s.length = 0

instance (buf : Nat → Nat) (s : List Nat) : Decidable (holdsCString buf s) := by
  unfold holdsCString; infer_instance

/-- A concrete buffer fixture holding 0xFF at every offset, so any write and
any missing terminator is visible. -/
def bufFF : Nat → Nat := fun _ => 255

/-- A concrete host record fixture reporting all three standard streams as
terminals. -/
def ttyAllOn : WasiTty := ⟨80, 25, 640, 480, 1, 1, 1, 1, 1⟩

/-- `#define _NSIG 65` from `sys/select.h`. -/
def NSIG : Nat := 65

/-- `#define _NSIG_BPW 32` from `sys/select.h` (bits per word: `unsigned long`
is 32 bits on wasm32). -/
def NSIG_BPW : Nat := 32

/-- `#define _NSIG_WORDS (_NSIG / _NSIG_BPW)` from `sys/select.h`: C integer
division, which truncates. -/
def NSIG_WORDS : Nat := NSIG / NSIG_BPW

/-- A `sigset_t` value: the word array `unsigned long sig[_NSIG_WORDS]`
(the union member `__bits` aliases the same storage), as a list of
`NSIG_WORDS` words, each reduced modulo `2 ^ NSIG_BPW`. -/
def sigemptyset : List Nat := List.replicate NSIG_WORDS 0

/-- Signal number `i` has in-range storage in the `sigset_t` word array:
its word index `i / _NSIG_BPW` is an index of `sig[_NSIG_WORDS]`. -/
def sigBitInRange (i : Nat) : Prop := i / NSIG_BPW < NSIG_WORDS

instance (i : Nat) : Decidable (sigBitInRange i) := by
  unfold sigBitInRange; infer_instance

/-- Modelled from the spec: `sys/select.h` defines only the `sigset_t`
storage; the operation that sets bit `i` is not under `src/`.  Per the data
model, bit `i` lives at bit `i mod _NSIG_BPW` of word `i / _NSIG_BPW`, and
setting it must not disturb any other bit. -/
def sigaddset (s : List Nat) (i : Nat) : List Nat :=
  s.set (i / NSIG_BPW) ((s.getD (i / NSIG_BPW) 0 ||| (1 <<< (i % NSIG_BPW))) % 2 ^ NSIG_BPW)

/-- Modelled from the spec: `sys/select.h` defines only the `sigset_t`
storage; the operation that tests bit `i` is not under `src/`.  It reads bit
`i mod _NSIG_BPW` of word `i / _NSIG_BPW`. -/
def sigismember (s : List Nat) (i : Nat) : Bool :=
  (s.getD (i / NSIG_BPW) 0 >>> (i % NSIG_BPW)) % 2 = 1

/-- How a `pselect` wait ends: some watched descriptors became ready, or the
timeout elapsed. -/
inductive WaitOutcome where
  | ready (count : Nat)
  | timedOut
deriving DecidableEq, Repr

/-- One atomic step of a `pselect` call, as the spec describes it: beginning
the wait (installing the caller's mask, when non-null, in that same step) and
ending the wait (restoring the previous mask, when one was installed, in that
same step). -/
inductive PselectStep where
  | beginWait (install : Option (List Nat))
  | endWait (restore : Option (List Nat)) (outcome : WaitOutcome)
deriving DecidableEq, Repr

/-- Modelled from the spec: the `pselect` implementation is not under `src/`
(`sys/select.h` only declares it).  Per the spec, "the signal mask must be
installed as part of the same atomic step that begins waiting, and the
previously active mask restored as part of the same atomic step that ends
waiting"; a null mask argument means "do not alter the active mask".
`current` is the mask active before the call, `mask` the caller's argument,
`o` how the wait ended. -/
def pselectSteps (current : List Nat) (mask : Option (List Nat)) (o : WaitOutcome) :
    List PselectStep :=
  [PselectStep.beginWait mask, PselectStep.endWait (mask.map fun _ => current) o]

/-- The effect of one atomic `pselect` step on the active signal mask. -/
def applyStep (m : List Nat) (s : PselectStep) : List Nat :=
  match s with
  | PselectStep.beginWait (some k) => k
  | PselectStep.beginWait none => m
  | PselectStep.endWait (some k) _ => k
  | PselectStep.endWait none _ => m

/-- The signal mask active after a `pselect` call returns, starting from
active mask `current`. -/
def maskAfterPselect (current : List Nat) (mask : Option (List Nat)) (o : WaitOutcome) :
    List Nat :=
  (pselectSteps current mask o).foldl applyStep current

/-- C `strnlen(s, maxlen)` where `s` is the byte content of a NUL-terminated
string: the number of bytes before the first NUL, capped at `maxlen`. -/
def strnlen (s : List Nat) (maxlen : Nat) : Nat :=
  match s, maxlen with
  | [], _ => 0
  | _, 0 => 0
  | c :: rest, m + 1 => if c = 0 then 0 else 1 + strnlen rest m

/-- `ERANGE` as the upstream (musl/Linux) branch of `pthread_setname_np.c`
sees it. -/
def ERANGE : Nat := 34

/-- A host call issued by the upstream `pthread_setname_np`: the `prctl`
naming call, the `open` of `/proc/self/task/<tid>/comm`, or the `write` of
the name bytes to it. -/
inductive NameCall where
  | prctlSetName (name : List Nat)
  | commOpen (tid : Nat)
  | commWrite (tid : Nat) (bytes : List Nat)
deriving DecidableEq, Repr

/-- Whether a host call actually sets the thread name (`prctl` or the
`write`; the `open` is only preparatory). -/
def isNamingCall : NameCall → Bool
  | NameCall.prctlSetName _ => true
  | NameCall.commWrite _ _ => true
  | NameCall.commOpen _ => false

/-- Result of a `pthread_setname_np` call: the `int` return value and the
host calls issued, in order. -/
structure SetnameResult where
  ret : Nat
  calls : List NameCall
deriving DecidableEq, Repr

/-- Outcomes of the host calls the upstream `pthread_setname_np` may issue:
whether each fails, and the `errno` value a failing call leaves behind. -/
structure HostEnv where
  prctlFails : Bool
  openFails : Bool
  writeFails : Bool
  prctlErrno : Nat
  ioErrno : Nat
deriving DecidableEq, Repr

/-- The wasix (constrained-host) branch of `pthread_setname_np` from
`pthread_setname_np.c`:

```c
int pthread_setname_np(pthread_t thread, const char *name) { return 0; }
``` -/
def pthread_setname_np_constrained (_thread : Nat) (_name : List Nat) : SetnameResult :=
  ⟨0, []⟩

/-- The upstream (capability-rich) branch of `pthread_setname_np` from
`pthread_setname_np.c`.  `isSelf` is whether `thread == pthread_self()`;
`tid` is `thread->tid`; `name` is the byte content of the name string;
`h` gives the outcomes of the host calls.

```c
if ((len = strnlen(name, 16)) > 15) return ERANGE;
if (thread == pthread_self())
    return prctl(PR_SET_NAME, (unsigned long)name, 0UL, 0UL, 0UL) ? errno : 0;
snprintf(f, sizeof f, "/proc/self/task/%d/comm", thread->tid);
pthread_setcancelstate(PTHREAD_CANCEL_DISABLE, &cs);
if ((fd = open(f, O_WRONLY)) < 0 || write(fd, name, len) < 0) status = errno;
if (fd >= 0) close(fd);
pthread_setcancelstate(cs, 0);
return status;
``` -/
def pthread_setname_np_upstream (isSelf : Bool) (tid : Nat) (name : List Nat)
    (h : HostEnv) : SetnameResult :=
  let len := strnlen name 16
  if 15 < len then ⟨ERANGE, []⟩
  else if isSelf then
    ⟨if h.prctlFails then h.prctlErrno else 0, [NameCall.prctlSetName name]⟩
  else if h.openFails then ⟨h.ioErrno, [NameCall.commOpen tid]⟩
  else ⟨if h.writeFails then h.ioErrno else 0,
        [NameCall.commOpen tid, NameCall.commWrite tid (name.take len)]⟩

/-- A concrete host-environment fixture in which every host call succeeds. -/
def okHost : HostEnv := ⟨false, false, false, 0, 0⟩

/-- A concrete 16-byte name fixture with no NUL among its first 16 bytes
(so its length exceeds 15). -/
def longName : List Nat := List.replicate 16 97

/-- A concrete 3-byte name fixture, "abc". -/
def shortName : List Nat := [97, 98, 99]

/-- C1 (code_bug evidence): when the `__wasi_tty_get` host call fails — here
with error code 8 on descriptor 0 and capacity 16 — `ttyname_r` returns 0,
not a positive error code; it stores the host error in `errno` and leaves
the buffer untouched.  The claim (and the spec) say the failure is
propagated as a nonzero return, distinct from "not a terminal". -/
theorem ttyname_r_host_failure_eval :
    (ttyname_r 0 bufFF 16 8 ttyAllOn 0).ret = 0 ∧
    (ttyname_r 0 bufFF 16 8 ttyAllOn 0).errno = 8 ∧
    (ttyname_r 0 bufFF 16 8 ttyAllOn 0).buf 0 = 255 := by
  refine ⟨rfl, rfl, rfl⟩

/-- C10: for every descriptor, capacity and prior errno, when the host
terminal query returns a nonzero error code `r`, `ttyname_r` returns 0,
sets `errno` to `r`, and leaves the caller's buffer unmodified. -/
theorem ttyname_r_host_failure_errno (fd : Int) (buf : Nat → Nat) (size : Nat)
    (r : Nat) (tty : WasiTty) (errno0 : Nat) (hr : r ≠ 0) :
    (ttyname_r fd buf size r tty errno0).ret = 0 ∧
    (ttyname_r fd buf size r tty errno0).errno = r ∧
    (ttyname_r fd buf size r tty errno0).buf = buf := by
  unfold ttyname_r
  rw [if_pos hr]
  exact ⟨rfl, rfl, rfl⟩

/-- Witness for C10 at descriptor 1, capacity 4, host error 52. -/
theorem ttyname_r_host_failure_errno_witness :
    (52 : Nat) ≠ 0 ∧
    ((ttyname_r 1 bufFF 4 52 ttyAllOn 7).ret = 0 ∧
     (ttyname_r 1 bufFF 4 52 ttyAllOn 7).errno = 52 ∧
     (ttyname_r 1 bufFF 4 52 ttyAllOn 7).buf = bufFF) :=
  ⟨by decide, ttyname_r_host_failure_errno 1 bufFF 4 52 ttyAllOn 7 (by decide)⟩

/-- C2: after a `pselect` call with a non-null signal mask, the active mask
equals the mask active before the call, whatever the wait outcome; and the
call's trace installs the caller's mask in the same atomic step that begins
the wait and restores the previous mask in the same atomic step that ends
it. -/
theorem pselect_mask_restoration (current k : List Nat) (o : WaitOutcome) :
    maskAfterPselect current (some k) o = current ∧
    pselectSteps current (some k) o =
      [PselectStep.beginWait (some k), PselectStep.endWait (some current) o] := by
  exact ⟨rfl, rfl⟩

/-- C5 (counterexample): `ttyname_r(1, buf, 0)` does not fail when the host
reports stdout a terminal — it returns 0. -/
theorem ttyname_r_zero_capacity_cex :
    (ttyname_r 1 bufFF 0 0 ttyAllOn 0).ret = 0 := by
  decide

/-- C5 (amended): a `ttyname_r` call with capacity 0 writes no byte into the
caller's buffer, for every descriptor and host reply; but it does not always
fail: its return value is 0 (not an error) exactly when the host query fails
or the descriptor is 0, 1 or 2 with the matching is-terminal flag set, and
`ENOTTY` otherwise. -/
theorem ttyname_r_zero_capacity_no_write (fd : Int) (buf : Nat → Nat) (r : Nat)
    (tty : WasiTty) (errno0 : Nat) :
    (ttyname_r fd buf 0 r tty errno0).buf = buf ∧
    (ttyname_r fd buf 0 r tty errno0).ret =
      if r ≠ 0 ∨ (fd = 0 ∧ tty.stdin_tty = 1) ∨ (fd = 1 ∧ tty.stdout_tty = 1) ∨
         (fd = 2 ∧ tty.stderr_tty = 1) then 0 else ENOTTY := by
  unfold ttyname_r
  by_cases hr : r ≠ 0
  · rw [if_pos hr]
    exact ⟨rfl, by rw [if_pos (Or.inl hr)]⟩
  · rw [if_neg hr]
    by_cases h0 : fd = 0 ∧ tty.stdin_tty = 1
    · rw [if_pos h0]
      refine ⟨?_, by rw [if_pos (Or.inr (Or.inl h0))]⟩
      funext i; simp [strncpy]
    · rw [if_neg h0]
      by_cases h1 : fd = 1 ∧ tty.stdout_tty = 1
      · rw [if_pos h1]
        refine ⟨?_, by rw [if_pos (Or.inr (Or.inr (Or.inl h1)))]⟩
        funext i; simp [strncpy]
      · rw [if_neg h1]
        by_cases h2 : fd = 2 ∧ tty.stderr_tty = 1
        · rw [if_pos h2]
          refine ⟨?_, by rw [if_pos (Or.inr (Or.inr (Or.inr h2)))]⟩
          funext i; simp [strncpy]
        · rw [if_neg h2]
          refine ⟨rfl, ?_⟩
          rw [if_neg (fun hc =>
            hc.elim hr (fun hc2 => hc2.elim h0 (fun hc3 => hc3.elim h1 h2)))]

/-- C8: the constrained-host `pthread_setname_np` returns 0 for every thread
handle and every name (overlong ones included) and issues no host call. -/
theorem pthread_setname_np_constrained_noop (thread : Nat) (name : List Nat) :
    pthread_setname_np_constrained thread name = ⟨0, []⟩ := by
  rfl

/-- C6: for every descriptor, capacity, host reply and prior errno,
`ttyname_r` writes at most `size` bytes into the caller's buffer: every
offset at or beyond `size` is unchanged. -/
theorem ttyname_r_bounded_write (fd : Int) (buf : Nat → Nat) (size : Nat)
    (r : Nat) (tty : WasiTty) (errno0 : Nat) (i : Nat) (h : size ≤ i) :
    (ttyname_r fd buf size r tty errno0).buf i = buf i := by
  have hni : ¬ i < size := Nat.not_lt.mpr h
  unfold ttyname_r
  split
  · rfl
  · split
    · simp only [strncpy]; rw [if_neg hni]
    · split
      · simp only [strncpy]; rw [if_neg hni]
      · split
        · simp only [strncpy]; rw [if_neg hni]
        · rfl

/-- Witness for C6 at descriptor 0, capacity 11, offset 20. -/
theorem ttyname_r_bounded_write_witness :
    11 ≤ 20 ∧ (ttyname_r 0 bufFF 11 0 ttyAllOn 0).buf 20 = bufFF 20 :=
  ⟨by decide, ttyname_r_bounded_write 0 bufFF 11 0 ttyAllOn 0 20 (by decide)⟩

/-- C7: when the host terminal query succeeds, `ttyname_r` returns `ENOTTY`
for every capacity whenever the descriptor is outside {0,1,2} (regardless of
the host's is-terminal flags), and also when the descriptor is 0, 1 or 2 but
the corresponding is-terminal flag is false (0). -/
theorem ttyname_r_not_a_tty (fd : Int) (buf : Nat → Nat) (size : Nat)
    (tty : WasiTty) (errno0 : Nat)
    (h : ¬(fd = 0 ∨ fd = 1 ∨ fd = 2) ∨
         (fd = 0 ∧ tty.stdin_tty = 0) ∨
         (fd = 1 ∧ tty.stdout_tty = 0) ∨
         (fd = 2 ∧ tty.stderr_tty = 0)) :
    (ttyname_r fd buf size 0 tty errno0).ret = ENOTTY := by
  unfold ttyname_r
  rw [if_neg (by simp)]
  rcases h with h | ⟨h0, hf⟩ | ⟨h1, hf⟩ | ⟨h2, hf⟩
  · push_neg at h
    obtain ⟨h0, h1, h2⟩ := h
    rw [if_neg (by simp [h0]), if_neg (by simp [h1]), if_neg (by simp [h2])]
  · rw [if_neg (by simp [hf]), if_neg (by simp [h0]), if_neg (by simp [h0])]
  · rw [if_neg (by simp [h1]), if_neg (by simp [hf]), if_neg (by simp [h1])]
  · rw [if_neg (by simp [h2]), if_neg (by simp [h2]), if_neg (by simp [hf])]

/-- Witness for C7 at descriptor 3 with all host flags set. -/
theorem ttyname_r_not_a_tty_witness :
    (¬((3 : Int) = 0 ∨ (3 : Int) = 1 ∨ (3 : Int) = 2) ∨
     ((3 : Int) = 0 ∧ ttyAllOn.stdin_tty = 0) ∨
     ((3 : Int) = 1 ∧ ttyAllOn.stdout_tty = 0) ∨
     ((3 : Int) = 2 ∧ ttyAllOn.stderr_tty = 0)) ∧
    (ttyname_r 3 bufFF 64 0 ttyAllOn 0).ret = ENOTTY :=
  ⟨by decide, ttyname_r_not_a_tty 3 bufFF 64 ttyAllOn 0 (by decide)⟩

/-- C4 (counterexample): with the positive capacity 5, descriptor 0 and the
host reporting stdin a terminal, `ttyname_r` returns 0 but the buffer does
not hold any NUL-terminated canonical path: `strncpy` truncates without
writing a terminator. -/
theorem ttyname_r_small_capacity_cex :
    (ttyname_r 0 bufFF 5 0 ttyAllOn 0).ret = 0 ∧
    ¬ holdsCString (ttyname_r 0 bufFF 5 0 ttyAllOn 0).buf devStdin ∧
    ¬ holdsCString (ttyname_r 0 bufFF 5 0 ttyAllOn 0).buf devStdout ∧
    ¬ holdsCString (ttyname_r 0 bufFF 5 0 ttyAllOn 0).buf devStderr := by
  decide

/-- C4 (amended): when the host query succeeds and `ttyname_r` returns 0,
the descriptor is 0, 1 or 2, and — provided the capacity is at least the
path length plus one (11 for "/dev/stdin", 12 for the other two) — the
caller's buffer holds the NUL-terminated canonical path for that
descriptor. -/
theorem ttyname_r_success_writes_path (fd : Int) (buf : Nat → Nat) (size : Nat)
    (tty : WasiTty) (errno0 : Nat)
    (hret : (ttyname_r fd buf size 0 tty errno0).ret = 0) :
    (fd = 0 ∧ (11 ≤ size → holdsCString (ttyname_r fd buf size 0 tty errno0).buf devStdin)) ∨
    (fd = 1 ∧ (12 ≤ size → holdsCString (ttyname_r fd buf size 0 tty errno0).buf devStdout)) ∨
    (fd = 2 ∧ (12 ≤ size → holdsCString (ttyname_r fd buf size 0 tty errno0).buf devStderr)) := by
  unfold ttyname_r at hret ⊢
  rw [if_neg (by simp)] at hret ⊢
  by_cases h0 : fd = 0 ∧ tty.stdin_tty = 1
  · rw [if_pos h0]
    refine Or.inl ⟨h0.1, fun hsize => ⟨fun i hi => ?_, ?_⟩⟩
    · have hi10 : i < 10 := hi
      simp only [strncpy]
      rw [if_pos (by omega)]
    · show strncpy buf devStdin size devStdin.length = 0
      simp only [strncpy]
      rw [if_pos (by simp [devStdin]; omega)]
      decide
  · rw [if_neg h0] at hret ⊢
    by_cases h1 : fd = 1 ∧ tty.stdout_tty = 1
    · rw [if_pos h1]
      refine Or.inr (Or.inl ⟨h1.1, fun hsize => ⟨fun i hi => ?_, ?_⟩⟩)
      · have hi11 : i < 11 := hi
        simp only [strncpy]
        rw [if_pos (by omega)]
      · show strncpy buf devStdout size devStdout.length = 0
        simp only [strncpy]
        rw [if_pos (by simp [devStdout]; omega)]
        decide
    · rw [if_neg h1] at hret ⊢
      by_cases h2 : fd = 2 ∧ tty.stderr_tty = 1
      · rw [if_pos h2]
        refine Or.inr (Or.inr ⟨h2.1, fun hsize => ⟨fun i hi => ?_, ?_⟩⟩)
        · have hi11 : i < 11 := hi
          simp only [strncpy]
          rw [if_pos (by omega)]
        · show strncpy buf devStderr size devStderr.length = 0
          simp only [strncpy]
          rw [if_pos (by simp [devStderr]; omega)]
          decide
      · rw [if_neg h2] at hret
        simp [ENOTTY] at hret

/-- Witness for the amended C4: `ttyname_r(0, buf, 11)` with stdin reported
a terminal returns 0 and leaves "/dev/stdin" NUL-terminated in the buffer. -/
theorem ttyname_r_success_writes_path_witness :
    (ttyname_r 0 bufFF 11 0 ttyAllOn 0).ret = 0 ∧
    (((0 : Int) = 0 ∧ (11 ≤ 11 → holdsCString (ttyname_r 0 bufFF 11 0 ttyAllOn 0).buf devStdin)) ∨
     ((0 : Int) = 1 ∧ (12 ≤ 11 → holdsCString (ttyname_r 0 bufFF 11 0 ttyAllOn 0).buf devStdout)) ∨
     ((0 : Int) = 2 ∧ (12 ≤ 11 → holdsCString (ttyname_r 0 bufFF 11 0 ttyAllOn 0).buf devStderr))) :=
  ⟨by decide, ttyname_r_success_writes_path 0 bufFF 11 ttyAllOn 0 (by decide)⟩

/-- C3 (counterexample): `_NSIG_WORDS = _NSIG / _NSIG_BPW` is C integer
division, which truncates: the `sigset_t` word array holds 2 × 32 = 64 bits,
not 65 rounded up, so signal number 64 (which is < `_NSIG` = 65) has no
in-range storage. -/
theorem sigset_storage_cex :
    NSIG_WORDS * NSIG_BPW = 64 ∧ 64 < NSIG ∧ ¬ sigBitInRange 64 := by
  decide

/-- Every in-range bit of a fresh zero signal-set behaves correctly under
set-then-test: exhaustive check over the 64 stored bits. -/
theorem sig_bits_all : ∀ i, i < 64 → ∀ j, j < 64 →
    sigBitInRange i ∧ sigismember (sigaddset sigemptyset i) i = true ∧
    (j ≠ i → sigismember (sigaddset sigemptyset i) j = false) := by
  decide

/-- C3 (amended): the `sigset_t` word array has `_NSIG / _NSIG_BPW` = 2
words of 32 bits — the division truncates, so the width is 64 bits, not 65
rounded up — and it provides in-range storage exactly for signal numbers
`i < 64`; for those, setting bit `i` in a fresh zero set and testing bit `i`
yields true while every other stored bit `j ≠ i` stays false. -/
theorem sigset_set_test_bits (i j : Nat) (hi : i < NSIG_WORDS * NSIG_BPW)
    (hj : j < NSIG_WORDS * NSIG_BPW) (hne : j ≠ i) :
    sigBitInRange i ∧ sigismember (sigaddset sigemptyset i) i = true ∧
    sigismember (sigaddset sigemptyset i) j = false := by
  have hw : NSIG_WORDS * NSIG_BPW = 64 := by decide
  rw [hw] at hi hj
  obtain ⟨a, b, c⟩ := sig_bits_all i hi j hj
  exact ⟨a, b, c hne⟩

/-- Witness for the amended C3 at bits 3 and 40. -/
theorem sigset_set_test_bits_witness :
    3 < NSIG_WORDS * NSIG_BPW ∧ 40 < NSIG_WORDS * NSIG_BPW ∧ (40 : Nat) ≠ 3 ∧
    (sigBitInRange 3 ∧ sigismember (sigaddset sigemptyset 3) 3 = true ∧
     sigismember (sigaddset sigemptyset 3) 40 = false) :=
  ⟨by decide, by decide, by decide,
   sigset_set_test_bits 3 40 (by decide) (by decide) (by decide)⟩

/-- C9: the upstream (capability-rich) `pthread_setname_np` returns `ERANGE`
for every name longer than 15 bytes without issuing any host call; for a
name within the bound, when the host calls succeed, it issues a naming host
call and returns 0. -/
theorem pthread_setname_np_upstream_spec (isSelf : Bool) (tid : Nat)
    (name : List Nat) (h : HostEnv) :
    (15 < strnlen name 16 →
      pthread_setname_np_upstream isSelf tid name h = ⟨ERANGE, []⟩) ∧
    (strnlen name 16 ≤ 15 → h.prctlFails = false → h.openFails = false →
      h.writeFails = false →
      (pthread_setname_np_upstream isSelf tid name h).ret = 0 ∧
      (pthread_setname_np_upstream isSelf tid name h).calls.any isNamingCall = true) := by
  constructor
  · intro hlong
    simp only [pthread_setname_np_upstream]
    rw [if_pos hlong]
  · intro hshort hp ho hw
    simp only [pthread_setname_np_upstream]
    rw [if_neg (by omega)]
    cases isSelf
    · simp [ho, hw, isNamingCall]
    · simp [hp, isNamingCall]

/-- Witness for C9: a 16-byte name gets `ERANGE` with no host call; the
3-byte name "abc" gets return 0 with a naming host call issued. -/
theorem pthread_setname_np_upstream_spec_witness :
    (15 < strnlen longName 16 ∧
     pthread_setname_np_upstream true 7 longName okHost = ⟨ERANGE, []⟩) ∧
    (strnlen shortName 16 ≤ 15 ∧
     (pthread_setname_np_upstream true 7 shortName okHost).ret = 0 ∧
     (pthread_setname_np_upstream true 7 shortName okHost).calls.any isNamingCall = true) :=
  ⟨⟨by decide, (pthread_setname_np_upstream_spec true 7 longName okHost).1 (by decide)⟩,
   ⟨by decide, (pthread_setname_np_upstream_spec true 7 shortName okHost).2
      (by decide) rfl rfl rfl⟩⟩
